import Mathlib

/-!
Shallow embedding of the node-zint wrapper (src/index.js).

JavaScript objects with optional keys become structures of `Option` fields;
in-place mutation of the symbol struct becomes explicit state passing (each
wrapper function returns the symbol it would have left behind).  The native
encoder (`symbology.createStream`, a precompiled C++ binding outside this
repository) is a parameter `native : NativeArgs → EncodeResult`; the list of
argument records the wrapper hands to it is returned alongside the outcome, so
that "which arguments were forwarded" and "was the encoder invoked" are
observable.  JavaScript numbers are modelled as `Int` (all values the wrapper
manipulates are integral), except `scale`, which is modelled as `Rat`.
-/

namespace NodeZint

/-- Modelled from the spec: the Encoding enum file (src/enums/encoding.js) is not
among the visible sources; `DATA_MODE` is the zint data-mode constant the wrapper
uses as the default `encoding` value.  No claim depends on its numeric value. -/
def Encoding.DATA_MODE : Int := 0

/-- Modelled from the spec: the Output enum file (src/enums/output.js) is not among
the visible sources; per the wrapper's documentation the output types are
`png`, `svg` and `eps`.  `Object.values(exp.Output)` is this list. -/
def Output.values : List String := ["png", "svg", "eps"]

/-- Modelled from the spec: `exp.Output.PNG`. -/
def Output.PNG : String := "png"

/-- Symbol struct as the caller passes it: a JS object whose keys may each be
absent (`none`).  The sixteen keys of `defaultSymbol` plus the optional `text`
key read by `createSymbology`. -/
structure Symbol where
  symbology : Option Int := none
  height : Option Int := none
  whitespaceWidth : Option Int := none
  borderWidth : Option Int := none
  outputOptions : Option Int := none
  foregroundColor : Option String := none
  backgroundColor : Option String := none
  fileName : Option String := none
  scale : Option Rat := none
  option1 : Option Int := none
  option2 : Option Int := none
  option3 : Option Int := none
  showHumanReadableText : Option Bool := none
  encoding : Option Int := none
  eci : Option Int := none
  primary : Option String := none
  text : Option String := none
  deriving DecidableEq, Repr

/-- Symbol struct populated with default values (src/index.js lines 21-38). -/
def defaultSymbol : Symbol where
  symbology := some 20
  height := some 50
  whitespaceWidth := some 0
  borderWidth := some 0
  outputOptions := some (-1)
  foregroundColor := some "000000"
  backgroundColor := some "ffffff"
  fileName := some "out.bmp"
  scale := some 1
  option1 := some (-1)
  option2 := some (-1)
  option3 := some (-1)
  showHumanReadableText := some true
  encoding := some Encoding.DATA_MODE
  eci := some 0
  primary := some ""
  text := none

/-- Merges the Symbol struct with the defaults (src/index.js lines 47-55): for
each key of `defaultSymbol`, if the caller's struct does not have the key it is
assigned the default value.  The JS function mutates its argument in place;
here the updated struct is returned.  `text` is not a key of `defaultSymbol`
and is untouched. -/
def validateSymbol (s : Symbol) : Symbol where
  symbology := some (s.symbology.getD 20)
  height := some (s.height.getD 50)
  whitespaceWidth := some (s.whitespaceWidth.getD 0)
  borderWidth := some (s.borderWidth.getD 0)
  outputOptions := some (s.outputOptions.getD (-1))
  foregroundColor := some (s.foregroundColor.getD "000000")
  backgroundColor := some (s.backgroundColor.getD "ffffff")
  fileName := some (s.fileName.getD "out.bmp")
  scale := some (s.scale.getD 1)
  option1 := some (s.option1.getD (-1))
  option2 := some (s.option2.getD (-1))
  option3 := some (s.option3.getD (-1))
  showHumanReadableText := some (s.showHumanReadableText.getD true)
  encoding := some (s.encoding.getD Encoding.DATA_MODE)
  eci := some (s.eci.getD 0)
  primary := some (s.primary.getD "")
  text := s.text

/-- Argument record handed to the native library function, in the order
`createSymbology` passes them (src/index.js lines 70-90). -/
structure NativeArgs where
  barcodeData : String
  symbology : Int
  height : Int
  whitespaceWidth : Int
  borderWidth : Int
  outputOptions : Int
  backgroundColor : String
  foregroundColor : String
  fileName : String
  scale : Rat
  option1 : Int
  option2 : Int
  option3 : Int
  showHumanReadableText : Int
  text : String
  encoding : Int
  eci : Int
  primary : String
  deriving DecidableEq, Repr

/-- Result record the native `createStream` function returns: code, message,
raw bitmap bytes, and pixel dimensions. -/
structure EncodeResult where
  code : Int
  message : String
  encodedData : List Nat
  width : Int
  height : Int
  deriving DecidableEq, Repr

/-- String.replace of the anchored pattern matching a trailing `.png` by `.bmp`
(src/index.js line 80). -/
def jsReplaceTrailingPng (fn : String) : String :=
  if fn.endsWith ".png" then fn.dropRight 4 ++ ".bmp" else fn

/-- Argument record assembled from the validated struct, fields in the order
`createSymbology` passes them (src/index.js lines 70-90).  The `getD`
fall-backs are dead after `validateSymbol`: every field is then present. -/
def buildNativeArgs (s : Symbol) (barcodeData : String) : NativeArgs :=
  { barcodeData := barcodeData
    symbology := s.symbology.getD 0
    height := s.height.getD 0
    whitespaceWidth := s.whitespaceWidth.getD 0
    borderWidth := s.borderWidth.getD 0
    outputOptions := s.outputOptions.getD 0
    backgroundColor := s.backgroundColor.getD ""
    foregroundColor := s.foregroundColor.getD ""
    fileName := jsReplaceTrailingPng (s.fileName.getD "")
    scale := s.scale.getD 0
    option1 := s.option1.getD 0
    option2 := s.option2.getD 0
    option3 := s.option3.getD 0
    showHumanReadableText := if s.showHumanReadableText.getD false then 1 else 0
    text :=
      match s.text with
      | some t => if t = "" then barcodeData else t
      | none => barcodeData
    encoding := s.encoding.getD 0
    eci := s.eci.getD 0
    primary := s.primary.getD "" }

/-- Validates the struct and calls the native function with the struct's fields
in order (src/index.js lines 67-91).  Returns the struct as mutated by
`validateSymbol`, the argument record forwarded, and the native result. -/
def createSymbology (native : NativeArgs → EncodeResult) (s0 : Symbol)
    (barcodeData : String) : Symbol × NativeArgs × EncodeResult :=
  let s := validateSymbol s0
  let args := buildNativeArgs s barcodeData
  (s, args, native args)

/-- Outcome of `callManagedLibrary`: a synchronous throw, a resolved promise
(with data, message, code, width, height), or a rejected promise (with only
message and code). -/
inductive CallOutcome where
  | thrown (message : String)
  | resolved (data : List Nat) (message : String) (code : Int) (width : Int) (height : Int)
  | rejected (message : String) (code : Int)
  deriving DecidableEq, Repr

/-- State `callManagedLibrary` leaves behind: the symbol struct after the
wrapper's in-place mutations, the outcome, and the native calls it made. -/
structure CallResult where
  symbolAfter : Symbol
  outcome : CallOutcome
  nativeCalls : List NativeArgs
  deriving DecidableEq, Repr

/-- Pre-call mutation for non-PNG output (src/index.js lines 160-168): rewrite
`fileName` to `out.<type>` and bump `outputOptions`: `parseInt` of a present
integer is the integer, of an absent value is NaN; a positive parse adds 8, any
other outcome sets the field to 8. -/
def adjustForOutputType (symbol : Symbol) (outputType : String) : Symbol :=
  if outputType ≠ Output.PNG then
    let sf := { symbol with fileName := some ("out." ++ outputType) }
    match sf.outputOptions with
    | some v =>
        if 0 < v then { sf with outputOptions := some (v + 8) }
        else { sf with outputOptions := some 8 }
    | none => { sf with outputOptions := some 8 }
  else symbol

/-- callManagedLibrary (src/index.js lines 155-185).  Throws on an output type
outside the Output enum; mutates the struct through `adjustForOutputType` for
non-PNG output; then calls the native library through `createSymbology` and
resolves when the result code is at most 2, rejecting otherwise. -/
def callManagedLibrary (native : NativeArgs → EncodeResult) (symbol : Symbol)
    (barcodeData : String) (outputType : String) : CallResult :=
  if outputType ∈ Output.values then
    let r := createSymbology native (adjustForOutputType symbol outputType) barcodeData
    if r.2.2.code ≤ 2 then
      { symbolAfter := r.1
        outcome := CallOutcome.resolved r.2.2.encodedData r.2.2.message r.2.2.code
            r.2.2.width r.2.2.height
        nativeCalls := [r.2.1] }
    else
      { symbolAfter := r.1
        outcome := CallOutcome.rejected r.2.2.message r.2.2.code
        nativeCalls := [r.2.1] }
  else
    { symbolAfter := symbol
      outcome := CallOutcome.thrown ("Invalid output type: " ++ outputType)
      nativeCalls := [] }

/-- Pixel as `image.setAt` receives it (pngjs-image): red, green, blue taken
from the bitmap array (a JS array read out of range yields undefined, hence
`Option`), and an alpha channel. -/
structure Pixel where
  red : Option Nat
  green : Option Nat
  blue : Option Nat
  alpha : Nat
  deriving DecidableEq, Repr

/-- In-memory image: width, height and a row-major pixel store; a slot not yet
written by `setAt` is `none`. -/
structure Image where
  width : Nat
  height : Nat
  data : List (Option Pixel)
  deriving DecidableEq, Repr

/-- PNGImage.createImage: a fresh width×height image with no pixel written. -/
def createImage (width height : Nat) : Image :=
  { width := width, height := height, data := List.replicate (width * height) none }

/-- image.setAt x y: writes the pixel at row-major index `y * width + x`. -/
def setAt (img : Image) (x y : Nat) (p : Pixel) : Image :=
  { img with data := img.data.set (y * img.width + x) (some p) }

/-- Observation of the pixel stored at (x, y). -/
def getAt (img : Image) (x y : Nat) : Option Pixel :=
  (img.data[y * img.width + x]?).getD none

/-- Pixel literal built at loop counter `i` (src/index.js lines 129-134):
red, green, blue from bitmap indices i, i+1, i+2, alpha 200. -/
def mkPixel (bitmap : List Nat) (i : Nat) : Pixel :=
  { red := bitmap[i]?, green := bitmap[i + 1]?, blue := bitmap[i + 2]?, alpha := 200 }

/-- Inner x-loop of pngRender: `cnt` iterations remain, the current x and the
running byte index i are threaded; returns the image and the final i. -/
def renderRowAux (bitmap : List Nat) (y : Nat) :
    Nat → Image → Nat → Nat → Image × Nat
  | 0, img, _, i => (img, i)
  | c + 1, img, x, i =>
      renderRowAux bitmap y c (setAt img x y (mkPixel bitmap i)) (x + 1) (i + 3)

/-- Outer y-loop of pngRender: each row runs the inner loop from x = 0 for
`width` iterations; the byte index i carries over between rows. -/
def renderRowsAux (bitmap : List Nat) (width : Nat) :
    Nat → Image → Nat → Nat → Image
  | 0, img, _, _ => img
  | c + 1, img, y, i =>
      let p := renderRowAux bitmap y width img 0 i
      renderRowsAux bitmap width c p.1 (y + 1) p.2

/-- pngRender (src/index.js lines 123-140): renders the RGB bitmap into a
fresh width×height image by the double loop. -/
def pngRender (bitmap : List Nat) (width height : Nat) : Image :=
  renderRowsAux bitmap width height (createImage width height) 0 0

/-- Outcome of `createStream`: the throw propagates synchronously; a resolved
PNG carries the serialized base64 data, a resolved non-PNG carries the raw
result; rejection is passed through. -/
inductive StreamOutcome where
  | thrown (message : String)
  | resolvedPng (data : String) (width : Int) (height : Int) (message : String) (code : Int)
  | resolvedRaw (data : List Nat) (message : String) (code : Int) (width : Int) (height : Int)
  | rejected (message : String) (code : Int)
  deriving DecidableEq, Repr

/-- State `createStream` leaves behind. -/
structure StreamResult where
  symbolAfter : Symbol
  outcome : StreamOutcome
  nativeCalls : List NativeArgs
  deriving DecidableEq, Repr

/-- createStream (src/index.js lines 195-214).  `pngSerialize` stands for the
external pngjs serialization (`blobToBase64Png` of the packed stream).  A JS
loop bound by a negative width or height runs zero iterations, hence
`Int.toNat`. -/
def createStream (native : NativeArgs → EncodeResult) (pngSerialize : Image → String)
    (symbol : Symbol) (barcodeData : String) (outputType : String) : StreamResult :=
  let r := callManagedLibrary native symbol barcodeData outputType
  match r.outcome with
  | CallOutcome.thrown m =>
      { symbolAfter := r.symbolAfter, outcome := StreamOutcome.thrown m
        nativeCalls := r.nativeCalls }
  | CallOutcome.rejected m c =>
      { symbolAfter := r.symbolAfter, outcome := StreamOutcome.rejected m c
        nativeCalls := r.nativeCalls }
  | CallOutcome.resolved data m c w h =>
      if outputType = Output.PNG then
        { symbolAfter := r.symbolAfter
          outcome := StreamOutcome.resolvedPng
              (pngSerialize (pngRender data w.toNat h.toNat)) w h m c
          nativeCalls := r.nativeCalls }
      else
        { symbolAfter := r.symbolAfter
          outcome := StreamOutcome.resolvedRaw data m c w h
          nativeCalls := r.nativeCalls }

/-- Modelled from the spec: a well-formed color string is a case-insensitive
6-hex-digit RGB value.  Stated from the specification's wording, to be compared
with the wrapper code, which performs no such check. -/
def specHex6Color (s : String) : Bool :=
  s.length = 6 &&
    s.toList.all fun c =>
      c.isDigit || ((decide ('a'.toNat ≤ c.toNat) && decide (c.toNat ≤ 'f'.toNat)) ||
        (decide ('A'.toNat ≤ c.toNat) && decide (c.toNat ≤ 'F'.toNat)))

/-! Concrete instances used by witnesses and counterexamples. -/

/-- Native stand-in that always succeeds with code 0. -/
def natOk : NativeArgs → EncodeResult := fun _ => ⟨0, "ok", [1, 2, 3], 1, 1⟩

/-- Native stand-in that always fails with code 5. -/
def natFail : NativeArgs → EncodeResult := fun _ => ⟨5, "bad", [], 0, 0⟩

/-- Serializer stand-in for the external pngjs base64 packing. -/
def b64Stub : Image → String := fun _ => "data:image/png;base64,"

/-! Helper lemmas about the wrapper call. -/

theorem adjustForOutputType_foregroundColor (s : Symbol) (t : String) :
    (adjustForOutputType s t).foregroundColor = s.foregroundColor := by
  rw [adjustForOutputType]
  split
  · cases s.outputOptions with
    | none => rfl
    | some v => by_cases h : 0 < v <;> simp [h]
  · rfl

theorem adjustForOutputType_backgroundColor (s : Symbol) (t : String) :
    (adjustForOutputType s t).backgroundColor = s.backgroundColor := by
  rw [adjustForOutputType]
  split
  · cases s.outputOptions with
    | none => rfl
    | some v => by_cases h : 0 < v <;> simp [h]
  · rfl

theorem adjustForOutputType_height (s : Symbol) (t : String) :
    (adjustForOutputType s t).height = s.height := by
  rw [adjustForOutputType]
  split
  · cases s.outputOptions with
    | none => rfl
    | some v => by_cases h : 0 < v <;> simp [h]
  · rfl

theorem adjustForOutputType_outputOptions_nonpng (s : Symbol) (t : String)
    (hpng : t ≠ Output.PNG) :
    (adjustForOutputType s t).outputOptions =
      some (match s.outputOptions with
            | some v => if 0 < v then v + 8 else 8
            | none => 8) := by
  rw [adjustForOutputType, if_pos hpng]
  cases s.outputOptions with
  | none => rfl
  | some v => by_cases h : 0 < v <;> simp [h]

theorem callManagedLibrary_valid (native : NativeArgs → EncodeResult) (s : Symbol)
    (d t : String) (ht : t ∈ Output.values) :
    callManagedLibrary native s d t =
      if (native (buildNativeArgs (validateSymbol (adjustForOutputType s t)) d)).code ≤ 2 then
        { symbolAfter := validateSymbol (adjustForOutputType s t)
          outcome :=
            CallOutcome.resolved
              (native (buildNativeArgs (validateSymbol (adjustForOutputType s t)) d)).encodedData
              (native (buildNativeArgs (validateSymbol (adjustForOutputType s t)) d)).message
              (native (buildNativeArgs (validateSymbol (adjustForOutputType s t)) d)).code
              (native (buildNativeArgs (validateSymbol (adjustForOutputType s t)) d)).width
              (native (buildNativeArgs (validateSymbol (adjustForOutputType s t)) d)).height
          nativeCalls := [buildNativeArgs (validateSymbol (adjustForOutputType s t)) d] }
      else
        { symbolAfter := validateSymbol (adjustForOutputType s t)
          outcome :=
            CallOutcome.rejected
              (native (buildNativeArgs (validateSymbol (adjustForOutputType s t)) d)).message
              (native (buildNativeArgs (validateSymbol (adjustForOutputType s t)) d)).code
          nativeCalls := [buildNativeArgs (validateSymbol (adjustForOutputType s t)) d] } := by
  rw [callManagedLibrary, if_pos ht]
  rfl

theorem callManagedLibrary_nativeCalls (native : NativeArgs → EncodeResult) (s : Symbol)
    (d t : String) (ht : t ∈ Output.values) :
    (callManagedLibrary native s d t).nativeCalls =
      [buildNativeArgs (validateSymbol (adjustForOutputType s t)) d] := by
  rw [callManagedLibrary_valid native s d t ht]
  split <;> rfl

theorem callManagedLibrary_symbolAfter (native : NativeArgs → EncodeResult) (s : Symbol)
    (d t : String) (ht : t ∈ Output.values) :
    (callManagedLibrary native s d t).symbolAfter =
      validateSymbol (adjustForOutputType s t) := by
  rw [callManagedLibrary_valid native s d t ht]
  split <;> rfl

theorem callManagedLibrary_not_thrown (native : NativeArgs → EncodeResult) (s : Symbol)
    (d t : String) (ht : t ∈ Output.values) (m : String) :
    (callManagedLibrary native s d t).outcome ≠ CallOutcome.thrown m := by
  rw [callManagedLibrary_valid native s d t ht]
  split <;> simp

theorem buildNativeArgs_outputOptions (s : Symbol) (d : String) :
    (buildNativeArgs (validateSymbol s) d).outputOptions = s.outputOptions.getD (-1) := by
  cases h : s.outputOptions <;> simp [buildNativeArgs, validateSymbol, h]

theorem callManagedLibrary_outputOptions_nonpng (native : NativeArgs → EncodeResult)
    (s : Symbol) (d t : String) (ht : t ∈ Output.values) (hpng : t ≠ Output.PNG) :
    (callManagedLibrary native s d t).nativeCalls.map NativeArgs.outputOptions =
      [match s.outputOptions with
       | some v => if 0 < v then v + 8 else 8
       | none => 8] := by
  rw [callManagedLibrary_nativeCalls native s d t ht]
  rw [List.map_singleton, buildNativeArgs_outputOptions,
    adjustForOutputType_outputOptions_nonpng s t hpng]
  rfl

/-! Lemmas about the pngRender double loop. -/

theorem setAt_width (img : Image) (x y : Nat) (p : Pixel) :
    (setAt img x y p).width = img.width := rfl

theorem setAt_length (img : Image) (x y : Nat) (p : Pixel) :
    (setAt img x y p).data.length = img.data.length :=
  List.length_set img.data _ _

theorem renderRowAux_snd (bm : List Nat) (y : Nat) :
    ∀ (cnt : Nat) (img : Image) (x i : Nat),
      (renderRowAux bm y cnt img x i).2 = i + 3 * cnt := by
  intro cnt
  induction cnt with
  | zero => intro img x i; simp [renderRowAux]
  | succ c ih =>
      intro img x i
      simp only [renderRowAux]
      rw [ih]
      omega

theorem renderRowAux_width (bm : List Nat) (y : Nat) :
    ∀ (cnt : Nat) (img : Image) (x i : Nat),
      ((renderRowAux bm y cnt img x i).1).width = img.width := by
  intro cnt
  induction cnt with
  | zero => intro img x i; rfl
  | succ c ih =>
      intro img x i
      simp only [renderRowAux]
      rw [ih]
      rfl

theorem renderRowAux_length (bm : List Nat) (y : Nat) :
    ∀ (cnt : Nat) (img : Image) (x i : Nat),
      ((renderRowAux bm y cnt img x i).1).data.length = img.data.length := by
  intro cnt
  induction cnt with
  | zero => intro img x i; rfl
  | succ c ih =>
      intro img x i
      simp only [renderRowAux]
      rw [ih, setAt_length]

theorem renderRowAux_frame (bm : List Nat) (y : Nat) :
    ∀ (cnt : Nat) (img : Image) (x i p : Nat),
      (p < y * img.width + x ∨ y * img.width + x + cnt ≤ p) →
      ((renderRowAux bm y cnt img x i).1).data[p]? = img.data[p]? := by
  intro cnt
  induction cnt with
  | zero => intro img x i p _; rfl
  | succ c ih =>
      intro img x i p hp
      simp only [renderRowAux]
      have hw : (setAt img x y (mkPixel bm i)).width = img.width := rfl
      have hstep := ih (setAt img x y (mkPixel bm i)) (x + 1) (i + 3) p
        (by rw [hw]; omega)
      rw [hstep]
      exact List.getElem?_set_ne (by omega)

theorem renderRowAux_write (bm : List Nat) (y : Nat) :
    ∀ (cnt : Nat) (img : Image) (x i k : Nat), k < cnt →
      y * img.width + x + k < img.data.length →
      ((renderRowAux bm y cnt img x i).1).data[y * img.width + x + k]? =
        some (some (mkPixel bm (i + 3 * k))) := by
  intro cnt
  induction cnt with
  | zero => intro img x i k hk _; exact absurd hk (Nat.not_lt_zero k)
  | succ c ih =>
      intro img x i k hk hlen
      simp only [renderRowAux]
      cases k with
      | zero =>
          simp only [Nat.add_zero, Nat.mul_zero] at hlen ⊢
          have hw : (setAt img x y (mkPixel bm i)).width = img.width := rfl
          have hfr := renderRowAux_frame bm y c (setAt img x y (mkPixel bm i)) (x + 1)
            (i + 3) (y * img.width + x) (by rw [hw]; omega)
          rw [hfr]
          exact List.getElem?_set_eq_of_lt _ hlen
      | succ k2 =>
          have hidx : y * img.width + x + (k2 + 1) = y * img.width + (x + 1) + k2 := by
            omega
          have hlen2 : y * (setAt img x y (mkPixel bm i)).width + (x + 1) + k2 <
              (setAt img x y (mkPixel bm i)).data.length := by
            rw [setAt_width, setAt_length]
            omega
          have hrec := ih (setAt img x y (mkPixel bm i)) (x + 1) (i + 3) k2
            (by omega) hlen2
          rw [setAt_width] at hrec
          rw [hidx, hrec]
          have harg : i + 3 + 3 * k2 = i + 3 * (k2 + 1) := by omega
          rw [harg]

theorem renderRowsAux_width (bm : List Nat) (w : Nat) :
    ∀ (cnt : Nat) (img : Image) (y i : Nat),
      (renderRowsAux bm w cnt img y i).width = img.width := by
  intro cnt
  induction cnt with
  | zero => intro img y i; rfl
  | succ c ih =>
      intro img y i
      simp only [renderRowsAux]
      rw [ih, renderRowAux_width]

theorem renderRowsAux_frame (bm : List Nat) (w : Nat) :
    ∀ (cnt : Nat) (img : Image) (y i p : Nat), img.width = w →
      (p < y * w ∨ (y + cnt) * w ≤ p) →
      (renderRowsAux bm w cnt img y i).data[p]? = img.data[p]? := by
  intro cnt
  induction cnt with
  | zero => intro img y i p _ _; rfl
  | succ c ih =>
      intro img y i p hw hp
      simp only [renderRowsAux]
      have hw2 : ((renderRowAux bm y w img 0 i).1).width = w := by
        rw [renderRowAux_width, hw]
      have hsm : (y + 1) * w = y * w + w := by ring
      have hmul : (y + 1) * w ≤ (y + (c + 1)) * w := Nat.mul_le_mul (by omega) (le_refl w)
      have hmul2 : y * w ≤ (y + 1) * w := Nat.mul_le_mul (by omega) (le_refl w)
      have hp2 : p < (y + 1) * w ∨ (y + 1 + c) * w ≤ p := by
        have hyc : (y + 1 + c) * w = (y + (c + 1)) * w := by ring_nf
        rcases hp with h | h
        · exact Or.inl (lt_of_lt_of_le h hmul2)
        · right; omega
      have hrows := ih (renderRowAux bm y w img 0 i).1 (y + 1)
        (renderRowAux bm y w img 0 i).2 p hw2 hp2
      rw [hrows]
      apply renderRowAux_frame
      rw [hw]
      rcases hp with h | h
      · left; omega
      · right; omega

theorem renderRowsAux_write (bm : List Nat) (w : Nat) :
    ∀ (cnt : Nat) (img : Image) (y i r x : Nat), img.width = w → r < cnt → x < w →
      (y + r) * w + x < img.data.length →
      (renderRowsAux bm w cnt img y i).data[(y + r) * w + x]? =
        some (some (mkPixel bm (i + 3 * (r * w + x)))) := by
  intro cnt
  induction cnt with
  | zero => intro img y i r x _ hr _ _; exact absurd hr (Nat.not_lt_zero r)
  | succ c ih =>
      intro img y i r x hw hr hx hlen
      simp only [renderRowsAux]
      cases r with
      | zero =>
          simp only [Nat.add_zero, Nat.zero_mul, Nat.zero_add] at hlen ⊢
          have hw2 : ((renderRowAux bm y w img 0 i).1).width = w := by
            rw [renderRowAux_width, hw]
          have hsm : (y + 1) * w = y * w + w := by ring
          rw [renderRowsAux_frame bm w c _ (y + 1) _ _ hw2 (Or.inl (by omega))]
          have hidx : y * w + x = y * img.width + 0 + x := by rw [hw]; omega
          have hlen2 : y * img.width + 0 + x < img.data.length := by rw [hw]; omega
          rw [hidx]
          exact renderRowAux_write bm y w img 0 i x hx hlen2
      | succ r2 =>
          have hyc : (y + (r2 + 1)) * w = (y + 1 + r2) * w := by ring_nf
          have hw2 : ((renderRowAux bm y w img 0 i).1).width = w := by
            rw [renderRowAux_width, hw]
          have hlen2 : (y + 1 + r2) * w + x < ((renderRowAux bm y w img 0 i).1).data.length := by
            rw [renderRowAux_length]
            omega
          have hsnd := renderRowAux_snd bm y w img 0 i
          rw [show (y + (r2 + 1)) * w + x = (y + 1 + r2) * w + x from by omega, hsnd]
          rw [ih (renderRowAux bm y w img 0 i).1 (y + 1) (i + 3 * w) r2 x hw2
            (by omega) hx hlen2]
          have harg : i + 3 * w + 3 * (r2 * w + x) = i + 3 * ((r2 + 1) * w + x) := by ring_nf
          rw [harg]

theorem pngRender_width (bm : List Nat) (w h : Nat) : (pngRender bm w h).width = w := by
  rw [pngRender, renderRowsAux_width]
  rfl

theorem pngRender_getAt (bm : List Nat) (w h x y : Nat) (hx : x < w) (hy : y < h) :
    getAt (pngRender bm w h) x y = some (mkPixel bm (3 * (y * w + x))) := by
  rw [getAt, pngRender_width, pngRender]
  have hlen : (createImage w h).data.length = w * h := List.length_replicate _ _
  have hsm : (y + 1) * w = y * w + w := by ring
  have hmul : (y + 1) * w ≤ h * w := Nat.mul_le_mul hy (le_refl w)
  have hcm : h * w = w * h := Nat.mul_comm h w
  have hp : (0 + y) * w + x < (createImage w h).data.length := by
    rw [hlen, Nat.zero_add]
    omega
  have hwr := renderRowsAux_write bm w h (createImage w h) 0 0 y x rfl hy hx hp
  rw [Nat.zero_add] at hwr
  rw [hwr]
  simp

theorem renderRowAux_congr (y : Nat) (bm1 bm2 : List Nat) :
    ∀ (cnt : Nat) (img : Image) (x i : Nat),
      (∀ j, i ≤ j → j < i + 3 * cnt → bm1[j]? = bm2[j]?) →
      renderRowAux bm1 y cnt img x i = renderRowAux bm2 y cnt img x i := by
  intro cnt
  induction cnt with
  | zero => intro img x i _; rfl
  | succ c ih =>
      intro img x i hagree
      simp only [renderRowAux]
      have hpix : mkPixel bm1 i = mkPixel bm2 i := by
        rw [mkPixel, mkPixel, hagree i (Nat.le_refl i) (by omega),
          hagree (i + 1) (by omega) (by omega), hagree (i + 2) (by omega) (by omega)]
      rw [hpix]
      exact ih _ _ _ (fun j h1 h2 => hagree j (by omega) (by omega))

theorem renderRowsAux_congr (w : Nat) (bm1 bm2 : List Nat) :
    ∀ (cnt : Nat) (img : Image) (y i : Nat),
      (∀ j, i ≤ j → j < i + 3 * (w * cnt) → bm1[j]? = bm2[j]?) →
      renderRowsAux bm1 w cnt img y i = renderRowsAux bm2 w cnt img y i := by
  intro cnt
  induction cnt with
  | zero => intro img y i _; rfl
  | succ c ih =>
      intro img y i hagree
      simp only [renderRowsAux]
      have hms : w * (c + 1) = w * c + w := by ring
      have hrow : renderRowAux bm1 y w img 0 i = renderRowAux bm2 y w img 0 i :=
        renderRowAux_congr y bm1 bm2 w img 0 i
          (fun j h1 h2 => hagree j h1 (by omega))
      rw [hrow]
      have hsnd := renderRowAux_snd bm2 y w img 0 i
      rw [hsnd]
      exact ih _ (y + 1) _ (fun j h1 h2 => hagree j (by omega) (by omega))

theorem pngRender_congr (w h : Nat) (bm1 bm2 : List Nat)
    (hagree : ∀ j, j < 3 * (w * h) → bm1[j]? = bm2[j]?) :
    pngRender bm1 w h = pngRender bm2 w h := by
  rw [pngRender, pngRender]
  exact renderRowsAux_congr w bm1 bm2 h (createImage w h) 0 0
    (fun j h1 h2 => hagree j (by omega))

/-! Claim theorems. -/

/-- C1: for every call to `callManagedLibrary` with a valid output type, the
native encoder is invoked exactly once; when its result code is at most 2 the
promise resolves with an object carrying the output data, message, code, width
and height, and when the code is at least 3 the promise rejects with an object
carrying only message and code (the `rejected` constructor has no data field). -/
theorem c1_result_code_partition (native : NativeArgs → EncodeResult) (s : Symbol)
    (d t : String) (ht : t ∈ Output.values) :
    ∃ args : NativeArgs,
      (callManagedLibrary native s d t).nativeCalls = [args] ∧
      ((native args).code ≤ 2 →
        (callManagedLibrary native s d t).outcome =
          CallOutcome.resolved (native args).encodedData (native args).message
            (native args).code (native args).width (native args).height) ∧
      (3 ≤ (native args).code →
        (callManagedLibrary native s d t).outcome =
          CallOutcome.rejected (native args).message (native args).code) := by
  refine ⟨buildNativeArgs (validateSymbol (adjustForOutputType s t)) d,
    callManagedLibrary_nativeCalls native s d t ht, ?_, ?_⟩ <;>
    rw [callManagedLibrary_valid native s d t ht]
  · intro h
    rw [if_pos h]
  · intro h
    rw [if_neg (by omega)]

/-- C1 witness: a concrete succeeding call resolves with the native result's
fields, and a concrete failing call rejects with only message and code. -/
theorem c1_result_code_partition_witness :
    ∃ args : NativeArgs,
      (callManagedLibrary natOk defaultSymbol "HELLO" "png").nativeCalls = [args] ∧
      (callManagedLibrary natOk defaultSymbol "HELLO" "png").outcome =
        CallOutcome.resolved [1, 2, 3] "ok" 0 1 1 := by
  obtain ⟨args, hcalls, hres, _⟩ :=
    c1_result_code_partition natOk defaultSymbol "HELLO" "png" (by decide)
  exact ⟨args, hcalls, (hres (by simp [natOk])).trans rfl⟩

/-- C2 counterexample: for svg output with caller-supplied outputOptions = -1,
the forwarded value is 8, not -1 + 8 = 7. -/
theorem c2_plus_eight_counterexample :
    (callManagedLibrary natOk { outputOptions := some (-1) } "A" "svg").nativeCalls.map
        NativeArgs.outputOptions = [8] ∧
    (8 : Int) ≠ -1 + 8 := by
  refine ⟨?_, by decide⟩
  rfl

/-- C2 amended: for every non-PNG output type the forwarded outputOptions is
the caller's value plus 8 when that value is present and positive, and 8
otherwise (absent, zero or negative caller value). -/
theorem c2_output_options_amended (native : NativeArgs → EncodeResult) (s : Symbol)
    (d t : String) (ht : t ∈ Output.values) (hpng : t ≠ Output.PNG) :
    (callManagedLibrary native s d t).nativeCalls.map NativeArgs.outputOptions =
      [match s.outputOptions with
       | some v => if 0 < v then v + 8 else 8
       | none => 8] :=
  callManagedLibrary_outputOptions_nonpng native s d t ht hpng

/-- C2 amended witness: svg output with caller value 5 forwards 13. -/
theorem c2_output_options_amended_witness :
    (callManagedLibrary natOk { outputOptions := some 5 } "A" "svg").nativeCalls.map
        NativeArgs.outputOptions = [13] := by
  have h := c2_output_options_amended natOk { outputOptions := some 5 } "A" "svg"
    (by decide) (by decide)
  rw [h]
  decide

/-- C3 counterexample: retrying the same call with the same (mutated) symbol
object after a failure does not forward identical argument values: a failing
svg call with outputOptions 1 forwards 9 and leaves 9 in the struct, and the
retry forwards 17. -/
theorem c3_retry_counterexample :
    (callManagedLibrary natFail { outputOptions := some 1 } "A" "svg").outcome =
      CallOutcome.rejected "bad" 5 ∧
    (callManagedLibrary natFail { outputOptions := some 1 } "A" "svg").nativeCalls.map
        NativeArgs.outputOptions = [9] ∧
    (callManagedLibrary natFail
        (callManagedLibrary natFail { outputOptions := some 1 } "A" "svg").symbolAfter
        "A" "svg").nativeCalls.map NativeArgs.outputOptions = [17] ∧
    (9 : Int) ≠ 17 := by
  refine ⟨rfl, rfl, rfl, by decide⟩

/-- C3 amended: the pipeline is deterministic on equal symbol values, but the
call mutates the symbol struct in place: for non-PNG output with a positive
caller outputOptions v, the call forwards v + 8 and stores v + 8 back into the
struct, so retrying the same call with the same symbol object forwards
v + 16. -/
theorem c3_determinism_amended (native : NativeArgs → EncodeResult) (s : Symbol)
    (d t : String) (ht : t ∈ Output.values) (hpng : t ≠ Output.PNG)
    (v : Int) (hv : s.outputOptions = some v) (hpos : 0 < v) :
    (callManagedLibrary native s d t).nativeCalls.map NativeArgs.outputOptions = [v + 8] ∧
    (callManagedLibrary native s d t).symbolAfter.outputOptions = some (v + 8) ∧
    (callManagedLibrary native (callManagedLibrary native s d t).symbolAfter d t).nativeCalls.map
        NativeArgs.outputOptions = [v + 16] := by
  have h1 := callManagedLibrary_outputOptions_nonpng native s d t ht hpng
  rw [hv] at h1
  simp only [if_pos hpos] at h1
  have hafter : (callManagedLibrary native s d t).symbolAfter.outputOptions = some (v + 8) := by
    rw [callManagedLibrary_symbolAfter native s d t ht]
    simp [validateSymbol, adjustForOutputType_outputOptions_nonpng s t hpng, hv, if_pos hpos]
  have h2 := callManagedLibrary_outputOptions_nonpng native
    (callManagedLibrary native s d t).symbolAfter d t ht hpng
  rw [hafter] at h2
  have hpos2 : (0 : Int) < v + 8 := by omega
  simp only [if_pos hpos2] at h2
  refine ⟨h1, hafter, h2.trans ?_⟩
  have : v + 8 + 8 = v + 16 := by omega
  rw [this]

/-- C3 amended witness: svg output with outputOptions 1 forwards 9, stores 9,
and the retry with the mutated struct forwards 17. -/
theorem c3_determinism_amended_witness :
    (callManagedLibrary natFail { outputOptions := some 1 } "B" "svg").nativeCalls.map
        NativeArgs.outputOptions = [(1 : Int) + 8] ∧
    (callManagedLibrary natFail { outputOptions := some 1 } "B" "svg").symbolAfter.outputOptions =
      some ((1 : Int) + 8) ∧
    (callManagedLibrary natFail
        (callManagedLibrary natFail { outputOptions := some 1 } "B" "svg").symbolAfter
        "B" "svg").nativeCalls.map NativeArgs.outputOptions = [(1 : Int) + 16] :=
  c3_determinism_amended natFail { outputOptions := some 1 } "B" "svg"
    (by decide) (by decide) 1 rfl (by decide)

/-- C4 counterexample: `validateSymbol` does not leave its argument unchanged:
on the empty struct it assigns the default height 50 (and the other defaults),
so the result differs from the argument. -/
theorem c4_mutation_counterexample :
    (validateSymbol {}).height = some 50 ∧
    ({} : Symbol).height = none ∧
    validateSymbol ({} : Symbol) ≠ ({} : Symbol) := by
  refine ⟨rfl, rfl, by decide⟩

/-- C4 amended: `validateSymbol` touches nothing but its argument struct, and
mutates that only by assigning defaults to absent keys: a struct on which every
key of `defaultSymbol` is present is returned unchanged. -/
theorem c4_no_mutation_when_full (s : Symbol)
    (h1 : s.symbology.isSome) (h2 : s.height.isSome) (h3 : s.whitespaceWidth.isSome)
    (h4 : s.borderWidth.isSome) (h5 : s.outputOptions.isSome) (h6 : s.foregroundColor.isSome)
    (h7 : s.backgroundColor.isSome) (h8 : s.fileName.isSome) (h9 : s.scale.isSome)
    (h10 : s.option1.isSome) (h11 : s.option2.isSome) (h12 : s.option3.isSome)
    (h13 : s.showHumanReadableText.isSome) (h14 : s.encoding.isSome) (h15 : s.eci.isSome)
    (h16 : s.primary.isSome) :
    validateSymbol s = s := by
  obtain ⟨a1, e1⟩ := Option.isSome_iff_exists.mp h1
  obtain ⟨a2, e2⟩ := Option.isSome_iff_exists.mp h2
  obtain ⟨a3, e3⟩ := Option.isSome_iff_exists.mp h3
  obtain ⟨a4, e4⟩ := Option.isSome_iff_exists.mp h4
  obtain ⟨a5, e5⟩ := Option.isSome_iff_exists.mp h5
  obtain ⟨a6, e6⟩ := Option.isSome_iff_exists.mp h6
  obtain ⟨a7, e7⟩ := Option.isSome_iff_exists.mp h7
  obtain ⟨a8, e8⟩ := Option.isSome_iff_exists.mp h8
  obtain ⟨a9, e9⟩ := Option.isSome_iff_exists.mp h9
  obtain ⟨a10, e10⟩ := Option.isSome_iff_exists.mp h10
  obtain ⟨a11, e11⟩ := Option.isSome_iff_exists.mp h11
  obtain ⟨a12, e12⟩ := Option.isSome_iff_exists.mp h12
  obtain ⟨a13, e13⟩ := Option.isSome_iff_exists.mp h13
  obtain ⟨a14, e14⟩ := Option.isSome_iff_exists.mp h14
  obtain ⟨a15, e15⟩ := Option.isSome_iff_exists.mp h15
  obtain ⟨a16, e16⟩ := Option.isSome_iff_exists.mp h16
  cases s
  simp only at e1 e2 e3 e4 e5 e6 e7 e8 e9 e10 e11 e12 e13 e14 e15 e16
  subst e1 e2 e3 e4 e5 e6 e7 e8 e9 e10 e11 e12 e13 e14 e15 e16
  simp [validateSymbol]

/-- C4 amended witness: the fully-populated default struct is unchanged. -/
theorem c4_no_mutation_when_full_witness : validateSymbol defaultSymbol = defaultSymbol :=
  c4_no_mutation_when_full defaultSymbol rfl rfl rfl rfl rfl rfl rfl rfl rfl rfl rfl
    rfl rfl rfl rfl rfl

/-- C5 counterexample: "xyz" is not a 6-hex-digit color, yet the wrapper raises
no validation error: the encoder is invoked with foregroundColor "xyz" and the
call resolves. -/
theorem c5_color_counterexample :
    specHex6Color "xyz" = false ∧
    (callManagedLibrary natOk { foregroundColor := some "xyz" } "A" "png").nativeCalls.map
        NativeArgs.foregroundColor = ["xyz"] ∧
    (callManagedLibrary natOk { foregroundColor := some "xyz" } "A" "png").outcome =
      CallOutcome.resolved [1, 2, 3] "ok" 0 1 1 := by
  refine ⟨by decide, rfl, rfl⟩

/-- C5 amended: the wrapper performs no color validation: for every call with a
valid output type, the foreground and background color strings (defaulted when
absent) are forwarded verbatim to the encoder, well-formed or not, and no error
is raised before the encoder is invoked. -/
theorem c5_colors_forwarded_amended (native : NativeArgs → EncodeResult) (s : Symbol)
    (d t : String) (ht : t ∈ Output.values) :
    (callManagedLibrary native s d t).nativeCalls.map NativeArgs.foregroundColor =
      [s.foregroundColor.getD "000000"] ∧
    (callManagedLibrary native s d t).nativeCalls.map NativeArgs.backgroundColor =
      [s.backgroundColor.getD "ffffff"] ∧
    ∀ m, (callManagedLibrary native s d t).outcome ≠ CallOutcome.thrown m := by
  refine ⟨?_, ?_, fun m => callManagedLibrary_not_thrown native s d t ht m⟩ <;>
    rw [callManagedLibrary_nativeCalls native s d t ht, List.map_singleton]
  · rw [show (buildNativeArgs (validateSymbol (adjustForOutputType s t)) d).foregroundColor =
      (validateSymbol (adjustForOutputType s t)).foregroundColor.getD "" from rfl]
    simp [validateSymbol, adjustForOutputType_foregroundColor]
  · rw [show (buildNativeArgs (validateSymbol (adjustForOutputType s t)) d).backgroundColor =
      (validateSymbol (adjustForOutputType s t)).backgroundColor.getD "" from rfl]
    simp [validateSymbol, adjustForOutputType_backgroundColor]

/-- C5 amended witness: the malformed color "zz00zz" is forwarded verbatim. -/
theorem c5_colors_forwarded_amended_witness :
    (callManagedLibrary natOk { foregroundColor := some "zz00zz" } "A" "png").nativeCalls.map
        NativeArgs.foregroundColor =
      [(some "zz00zz" : Option String).getD "000000"] :=
  (c5_colors_forwarded_amended natOk { foregroundColor := some "zz00zz" } "A" "png"
    (by decide)).1

/-- C6: when the caller's struct omits height, the height forwarded to the
encoder is the default 50. -/
theorem c6_default_height (native : NativeArgs → EncodeResult) (s : Symbol)
    (d t : String) (ht : t ∈ Output.values) (hh : s.height = none) :
    (callManagedLibrary native s d t).nativeCalls.map NativeArgs.height = [50] := by
  rw [callManagedLibrary_nativeCalls native s d t ht, List.map_singleton]
  rw [show (buildNativeArgs (validateSymbol (adjustForOutputType s t)) d).height =
    (validateSymbol (adjustForOutputType s t)).height.getD 0 from rfl]
  simp [validateSymbol, adjustForOutputType_height, hh]

/-- C6 witness: the empty struct with png output forwards height 50. -/
theorem c6_default_height_witness :
    (callManagedLibrary natOk ({} : Symbol) "HELLO" "png").nativeCalls.map
        NativeArgs.height = [50] :=
  c6_default_height natOk {} "HELLO" "png" (by decide) rfl

/-- C8: for an output type outside the Output enum, `callManagedLibrary` (and
hence `createStream`) ends in the synchronous throw and the native encoding
function is never invoked. -/
theorem c8_invalid_output_throws (native : NativeArgs → EncodeResult)
    (pngSerialize : Image → String) (s : Symbol) (d t : String)
    (ht : t ∉ Output.values) :
    (callManagedLibrary native s d t).outcome =
      CallOutcome.thrown ("Invalid output type: " ++ t) ∧
    (callManagedLibrary native s d t).nativeCalls = [] ∧
    (createStream native pngSerialize s d t).outcome =
      StreamOutcome.thrown ("Invalid output type: " ++ t) ∧
    (createStream native pngSerialize s d t).nativeCalls = [] := by
  have hcall : callManagedLibrary native s d t =
      { symbolAfter := s
        outcome := CallOutcome.thrown ("Invalid output type: " ++ t)
        nativeCalls := [] } := by
    rw [callManagedLibrary, if_neg ht]
  refine ⟨by rw [hcall], by rw [hcall], ?_, ?_⟩ <;> rw [createStream, hcall]

/-- C8 witness: output type "pdf" throws and makes no native call. -/
theorem c8_invalid_output_throws_witness :
    (callManagedLibrary natOk defaultSymbol "A" "pdf").outcome =
      CallOutcome.thrown ("Invalid output type: " ++ "pdf") ∧
    (callManagedLibrary natOk defaultSymbol "A" "pdf").nativeCalls = [] ∧
    (createStream natOk b64Stub defaultSymbol "A" "pdf").outcome =
      StreamOutcome.thrown ("Invalid output type: " ++ "pdf") ∧
    (createStream natOk b64Stub defaultSymbol "A" "pdf").nativeCalls = [] :=
  c8_invalid_output_throws natOk b64Stub defaultSymbol "A" "pdf" (by decide)

/-- C9: `validateSymbol` preserves every key already present on the struct,
leaves the non-defaulted `text` key alone, and is idempotent: applying it twice
equals applying it once. -/
theorem c9_validate_preserves_present (s : Symbol) :
    ((∀ v, s.symbology = some v → (validateSymbol s).symbology = some v) ∧
     (∀ v, s.height = some v → (validateSymbol s).height = some v) ∧
     (∀ v, s.whitespaceWidth = some v → (validateSymbol s).whitespaceWidth = some v) ∧
     (∀ v, s.borderWidth = some v → (validateSymbol s).borderWidth = some v) ∧
     (∀ v, s.outputOptions = some v → (validateSymbol s).outputOptions = some v) ∧
     (∀ v, s.foregroundColor = some v → (validateSymbol s).foregroundColor = some v) ∧
     (∀ v, s.backgroundColor = some v → (validateSymbol s).backgroundColor = some v) ∧
     (∀ v, s.fileName = some v → (validateSymbol s).fileName = some v) ∧
     (∀ v, s.scale = some v → (validateSymbol s).scale = some v) ∧
     (∀ v, s.option1 = some v → (validateSymbol s).option1 = some v) ∧
     (∀ v, s.option2 = some v → (validateSymbol s).option2 = some v) ∧
     (∀ v, s.option3 = some v → (validateSymbol s).option3 = some v) ∧
     (∀ v, s.showHumanReadableText = some v → (validateSymbol s).showHumanReadableText = some v) ∧
     (∀ v, s.encoding = some v → (validateSymbol s).encoding = some v) ∧
     (∀ v, s.eci = some v → (validateSymbol s).eci = some v) ∧
     (∀ v, s.primary = some v → (validateSymbol s).primary = some v)) ∧
    (validateSymbol s).text = s.text ∧
    validateSymbol (validateSymbol s) = validateSymbol s := by
  refine ⟨⟨?_, ?_, ?_, ?_, ?_, ?_, ?_, ?_, ?_, ?_, ?_, ?_, ?_, ?_, ?_, ?_⟩, rfl, ?_⟩
  all_goals first
    | (intro v hv; simp [validateSymbol, hv])
    | (cases s; simp [validateSymbol])

/-- C9 witness: a struct with height 7 present keeps it, and revalidation is a
no-op. -/
theorem c9_validate_preserves_present_witness :
    (validateSymbol { height := some 7 }).height = some 7 ∧
    validateSymbol (validateSymbol { height := some 7 }) =
      validateSymbol { height := some 7 } :=
  ⟨(c9_validate_preserves_present { height := some 7 }).1.2.1 7 rfl,
   (c9_validate_preserves_present { height := some 7 }).2.2⟩

/-- C7: the raster is consumed as a flat byte sequence, 3 bytes per pixel, in
row-major order: pixel (x, y) of the image `pngRender` produces is colored from
bitmap bytes 3*(y*width+x), 3*(y*width+x)+1 and 3*(y*width+x)+2 as red, green
and blue; and the output depends on exactly the first 3*width*height bytes: two
bitmaps agreeing there render identically. -/
theorem c7_raster_rowmajor (bitmap : List Nat) (width height x y : Nat)
    (hx : x < width) (hy : y < height) :
    getAt (pngRender bitmap width height) x y =
      some { red := bitmap[3 * (y * width + x)]?,
             green := bitmap[3 * (y * width + x) + 1]?,
             blue := bitmap[3 * (y * width + x) + 2]?,
             alpha := 200 } ∧
    ∀ bm2 : List Nat, (∀ j, j < 3 * (width * height) → bitmap[j]? = bm2[j]?) →
      pngRender bitmap width height = pngRender bm2 width height :=
  ⟨pngRender_getAt bitmap width height x y hx hy,
   fun bm2 hagree => pngRender_congr width height bitmap bm2 hagree⟩

/-- C7 witness: in a 2×1 image, pixel (1, 0) is colored from bytes 3, 4, 5. -/
theorem c7_raster_rowmajor_witness :
    getAt (pngRender [10, 11, 12, 20, 21, 22] 2 1) 1 0 =
      some { red := some 20, green := some 21, blue := some 22, alpha := 200 } := by
  have h := (c7_raster_rowmajor [10, 11, 12, 20, 21, 22] 2 1 1 0
    (by decide) (by decide)).1
  rw [h]
  decide

/-- C10: every pixel of the image `pngRender` produces has alpha component 200,
whatever the bitmap's RGB values. -/
theorem c10_alpha_200 (bitmap : List Nat) (width height x y : Nat)
    (hx : x < width) (hy : y < height) :
    ∃ px : Pixel, getAt (pngRender bitmap width height) x y = some px ∧ px.alpha = 200 :=
  ⟨mkPixel bitmap (3 * (y * width + x)),
   pngRender_getAt bitmap width height x y hx hy, rfl⟩

/-- C10 witness: the single pixel of a 1×1 render has alpha 200. -/
theorem c10_alpha_200_witness :
    ∃ px : Pixel, getAt (pngRender [9, 9, 9] 1 1) 0 0 = some px ∧ px.alpha = 200 :=
  c10_alpha_200 [9, 9, 9] 1 1 0 0 (by decide) (by decide)

end NodeZint
